import Mathlib

/-!
Verification development for the `camels_hydrogeo` hydrogeology attribute
extraction pipeline (`src/huek250/src/extract_functions.py`).

The source computes, per catchment polygon, the areal percentage of each
category value of six categorical attribute fields of the HUEK250 base map.
The shallow embedding below models:

* float64 values as `FVal` (exact rationals plus the IEEE `nan` and signed
  infinity sentinels, which arise from the pipeline's divisions);
* a pandas `DataFrame` as `Frame`: an index (row labels) plus an ordered
  list of named columns of values;
* geometry abstractly: a polygon's geometry is an opaque value of a type
  `Geom`, and geometric clipping is parametrised by an intersection-area
  function `iA : Geom → Geom → ℚ` (`iA g c` is the area of the intersection
  of geometry `g` with the catchment geometry `c`).  `huek.clip(catchment)`
  keeps every base-map row with its intersection area; rows disjoint from
  the catchment carry area `0` (geopandas drops them, which is equivalent
  for every area sum the source computes);
* `assert` statements and exceptions with `Bool` results (`false` = the
  assertion raised) and `Except String` for functions that can raise.
-/

/-- A float64 cell value: an exact rational, `nan`, or a signed infinity
(`inf true` is `+∞`).  `nan` and `inf` arise only from division by a zero
total clipped area. -/
inductive FVal where
  | nan : FVal
  | inf : Bool → FVal
  | num : ℚ → FVal
deriving DecidableEq, Repr

/-- Float division as the source's `/` on area sums: division by zero gives
`nan` for a zero numerator and a signed infinity otherwise. -/
def fdiv (a b : ℚ) : FVal :=
  if b = 0 then (if a = 0 then FVal.nan else FVal.inf (decide (0 < a))) else FVal.num (a / b)

/-- Multiplication of a float value by the constant `100` (`* 100` in the
source); a positive constant preserves `nan` and the sign of infinities. -/
def fmul100 : FVal → FVal
  | FVal.nan => FVal.nan
  | FVal.inf s => FVal.inf s
  | FVal.num q => FVal.num (100 * q)

/-- Float addition: `nan` propagates, opposite infinities give `nan`. -/
def fadd : FVal → FVal → FVal
  | FVal.nan, _ => FVal.nan
  | FVal.inf _, FVal.nan => FVal.nan
  | FVal.inf s, FVal.inf t => if s = t then FVal.inf s else FVal.nan
  | FVal.inf s, FVal.num _ => FVal.inf s
  | FVal.num _, FVal.nan => FVal.nan
  | FVal.num _, FVal.inf t => FVal.inf t
  | FVal.num a, FVal.num b => FVal.num (a + b)

/-- Is a float value the `nan` sentinel? -/
def isNan : FVal → Bool
  | FVal.nan => true
  | _ => false

/-- The pandas `Series.sum` over a row (`skipna=True`, the default used by
`df.sum(axis=1)` in `check_extracted_values`): `nan` entries are skipped and
the remaining values are added up starting from `0.0`. -/
def pandasSum (vs : List FVal) : FVal :=
  (vs.filter (fun v => !isNan v)).foldl fadd (FVal.num 0)

/-- `numpy.testing.assert_almost_equal actual desired decimal`: returns
`false` (the assertion raises) unless `actual` is finite and
`|desired - actual| < 1.5 * 10 ^ (-decimal)`; a `nan` or infinite `actual`
always raises for a finite `desired`. -/
def assertAlmostEqual (actual : FVal) (desired : ℚ) (decimal : ℕ) : Bool :=
  match actual with
  | FVal.num q => decide (|desired - q| < 3 / 2 / (10 : ℚ) ^ decimal)
  | FVal.inf _ => false
  | FVal.nan => false

/-- numpy round-half-to-even of a rational to an integer (the rounding mode
of `numpy.round`, used by `DataFrame.round`). -/
def roundHalfEven (x : ℚ) : ℤ :=
  let f := Int.floor x
  let r := x - (f : ℚ)
  if r < 1 / 2 then f
  else if 1 / 2 < r then f + 1
  else if f % 2 = 0 then f else f + 1

/-- Round a rational to 2 decimal places, half to even (`df.round(2)`). -/
def round2 (x : ℚ) : ℚ := (roundHalfEven (100 * x) : ℚ) / 100

/-- `round(2)` on a single float cell: `nan` and infinities are unchanged. -/
def fround2 : FVal → FVal
  | FVal.num q => FVal.num (round2 q)
  | v => v

/-- A pandas `DataFrame`: row labels (the index) and ordered named columns;
every column holds one value per row. -/
structure Frame where
  index : List String
  columns : List (String × List FVal)
deriving DecidableEq, Repr

/-- Column selection `df[name]`: the first column with the given name. -/
def Frame.lookup (df : Frame) (n : String) : Option (List FVal) :=
  (df.columns.find? (fun kv => kv.1 == n)).map Prod.snd

/-- `df[new] = values`: append a (fresh) named column at the end. -/
def Frame.addCol (df : Frame) (n : String) (vs : List FVal) : Frame :=
  { df with columns := df.columns ++ [(n, vs)] }

/-- `df.drop(names, axis=1)`: remove the named columns, keeping order. -/
def Frame.dropCols (df : Frame) (ns : List String) : Frame :=
  { df with columns := df.columns.filter (fun kv => !(ns.contains kv.1)) }

/-- `pd.DataFrame()`: the empty frame. -/
def emptyFrame : Frame := { index := [], columns := [] }

/-- Substring search on character lists (helper for Python's `in`). -/
def subAux (pat : List Char) : List Char → Bool
  | [] => pat.isEmpty
  | a :: t => pat.isPrefixOf (a :: t) || subAux pat t

/-- Python's `pat in s` substring test. -/
def strContains (s pat : String) : Bool := subAux pat.data s.data

/-- Python's `s.startswith(pat)`. -/
def strStarts (s pat : String) : Bool := pat.data.isPrefixOf s.data

/-- `df[[col for col in df.columns if col.startswith(category)]].sum(axis=1).iloc[0]`:
the row-0 sum of the columns whose name starts with `category` (computing the
first row's sum directly is equivalent to computing all row sums and taking
`iloc[0]`). -/
def firstRowPrefixSum (df : Frame) (category : String) : FVal :=
  pandasSum ((df.columns.filter (fun kv => strStarts kv.1 category)).map
    (fun kv => kv.2.headD FVal.nan))

/-- `check_extracted_values` (source lines 6-22): select the columns whose
name starts with `category`, sum them along axis 1, take row 0 and assert
the sum is almost equal to `100` with `decimal=1`.  Returns `false` when the
assertion raises (also when `.iloc[0]` raises `IndexError` on an empty
frame). -/
def check_extracted_values (df : Frame) (category : String) : Bool :=
  if df.index.isEmpty then false
  else assertAlmostEqual (firstRowPrefixSum df category) 100 1

/-- The six categorical attribute columns of one HUEK250 base-map row. -/
structure HuekAttrs where
  kf_bez : String
  LChar_bez : String
  HA_bez : String
  VF_bez : String
  GA_bez : String
  GC_bez : String
deriving DecidableEq, Repr

/-- One row of the HUEK250 base map: attributes plus a geometry. -/
structure HuekRow (Geom : Type) where
  attrs : HuekAttrs
  geometry : Geom
deriving DecidableEq, Repr

/-- One catchment row: its identifier (`catchment[id_field_name]`, modelled
directly as a field) and its geometry. -/
structure Catchment (Geom : Type) where
  gauge_id : String
  geom : Geom
deriving DecidableEq, Repr

/-- One row of `huek.clip(catchment)`: the attributes of the base-map row
together with the area of its intersection with the catchment. -/
structure ClippedRow where
  attrs : HuekAttrs
  area : ℚ
deriving DecidableEq, Repr

/-- `huek.clip(catchment)`: every base-map row keeps its attributes and is
assigned the area of its geometric intersection with the catchment
(rows disjoint from the catchment carry area `0`). -/
def clip {Geom : Type} (iA : Geom → Geom → ℚ) (huek : List (HuekRow Geom)) (g : Geom) :
    List ClippedRow :=
  huek.map (fun r => { attrs := r.attrs, area := iA r.geometry g })

/-- `clipped[clipped[field] == v].area.sum()` generalised: the total clipped
area of the rows satisfying `p`. -/
def areaWhere (clipped : List ClippedRow) (p : ClippedRow → Bool) : ℚ :=
  ((clipped.filter p).map ClippedRow.area).sum

/-- `clipped.area.sum()`: the total clipped area. -/
def areaTotal (clipped : List ClippedRow) : ℚ :=
  (clipped.map ClippedRow.area).sum

/-- One percentage cell of the extractors:
`(clipped[clipped[field] == v].area.sum() / clipped.area.sum()) * 100`. -/
def fieldPerc (clipped : List ClippedRow) (field : HuekAttrs → String) (v : String) : FVal :=
  fmul100 (fdiv (areaWhere clipped (fun r => field r.attrs == v)) (areaTotal clipped))

/-- One extractor's result row (e.g. lines 47-66 for `kf`): a frame indexed
by the catchment identifier, with one percentage column per `(column name,
category label)` pair, in source order. -/
def categoryFrame (clipped : List ClippedRow) (gid : String) (field : HuekAttrs → String)
    (cats : List (String × String)) : Frame :=
  { index := [gid],
    columns := cats.map (fun nv => (nv.1, [fieldPerc clipped field nv.2])) }

/-- The 14 permeability (`kf_bez`) columns of `extract_kf_from_huek`
(source lines 53-66), in source order. -/
def kfCats : List (String × String) :=
  [("kf_very_high_perc", "sehr hoch (>1E-2)"),
   ("kf_high_perc", "hoch (>1E-3 - 1E-2)"),
   ("kf_medium_perc", "mittel (>1E-4 - 1E-3)"),
   ("kf_moderate_perc", "mäßig (>1E-5 - 1E-4)"),
   ("kf_low_perc", "gering (>1E-7 - 1E-5)"),
   ("kf_very_low_perc", "sehr gering (>1E-9 - 1E-7)"),
   ("kf_extremely_low_perc", "äußerst gering (<1E-9)"),
   ("kf_very_high_to_high_perc", "sehr hoch bis hoch (>1E-3)"),
   ("kf_medium_to_moderate_perc", "mittel bis mäßig (>1E-5 - 1E-3)"),
   ("kf_low_to_extremely_low_perc", "gering bis äußerst gering (<1E-5)"),
   ("kf_highly_variable_perc", "stark variabel"),
   ("kf_moderate_to_low_perc", "mäßig bis gering (>1E-6 - 1E-4)"),
   ("kf_waterbody_perc", "Gewässer"),
   ("kf_no_data_perc", "keine Angaben")]

/-- The 5 aquifer media (`LChar_bez`) columns of `extract_ch_from_huek`
(source lines 102-106). -/
def chCats : List (String × String) :=
  [("aquitard_perc", "Grundwasser-Geringleiter"),
   ("aquifer_perc", "Grundwasser-Leiter"),
   ("aquifer_aquitard_mixed_perc", "Grundwasser-Leiter/Geringleiter"),
   ("aquifer_waterbody_perc", "Gewässer"),
   ("aquifer_no_data_perc", "keine Angaben")]

/-- The 6 cavity type (`HA_bez`) columns of `extract_ha_from_huek`
(source lines 142-147). -/
def haCats : List (String × String) :=
  [("cavity_fissure_perc", "Kluft"),
   ("cavity_pores_perc", "Poren"),
   ("cavity_fissure_karst_perc", "Kluft/Karst"),
   ("cavity_fissure_pores_perc", "Kluft/Poren"),
   ("cavity_waterbody_perc", "Gewässer"),
   ("cavity_no_data_perc", "keine Angaben")]

/-- The 4 consolidation (`VF_bez`) columns of `extract_vf_from_huek`
(source lines 183-186). -/
def vfCats : List (String × String) :=
  [("consolidation_solid_rock_perc", "Festgestein"),
   ("consolidation_unconsolidated_rock_perc", "Lockergestein"),
   ("consolidation_waterbody_perc", "Gewässer"),
   ("consolidation_no_data_perc", "keine Angaben")]

/-- The 5 rock type (`GA_bez`) columns of `extract_ga_from_huek`
(source lines 222-226). -/
def gaCats : List (String × String) :=
  [("rocktype_sediment_perc", "Sediment"),
   ("rocktype_metamorphite_perc", "Metamorphit"),
   ("rocktype_magmatite_perc", "Magmatit"),
   ("rocktype_waterbody_perc", "Gewässer"),
   ("rocktype_no_data_perc", "keine Angaben")]

/-- The 10 geochemical rock type (`GC_bez`) columns of
`extract_gc_from_huek` (source lines 262-271). -/
def gcCats : List (String × String) :=
  [("geochemical_rocktype_silicate_perc", "silikatisch"),
   ("geochemical_rocktype_silicate_carbonatic_perc", "silikatisch/karbonatisch"),
   ("geochemical_rocktype_carbonatic_perc", "karbonatisch"),
   ("geochemical_rocktype_sulfatic_perc", "sulfatisch"),
   ("geochemical_rocktype_silicate_organic_components_perc",
     "silikatisch mit organischen Anteilen"),
   ("geochemical_rocktype_anthropogenically_modified_through_filling_perc",
     "durch Auffüllung anthropogen verändert"),
   ("geochemical_rocktype_sulfatic_halitic_perc", "sulfatisch/halitisch"),
   ("geochemical_rocktype_halitic_perc", "halitisch"),
   ("geochemical_rocktype_waterbody_perc", "Gewässer"),
   ("geochemical_rocktype_no_data_perc", "keine Angaben")]

/-- `extract_kf_from_huek` (lines 25-71): clip the base map to the
catchment, build the permeability percentage row, and run
`check_extracted_values(df, "kf")`; the assertion raising is an error. -/
def extract_kf_from_huek {Geom : Type} (iA : Geom → Geom → ℚ) (huek : List (HuekRow Geom))
    (c : Catchment Geom) : Except String Frame :=
  let df := categoryFrame (clip iA huek c.geom) c.gauge_id (fun a => a.kf_bez) kfCats
  if check_extracted_values df "kf" then Except.ok df else Except.error "AssertionError"

/-- `extract_ch_from_huek` (lines 74-111), checked with category `"aqui"`. -/
def extract_ch_from_huek {Geom : Type} (iA : Geom → Geom → ℚ) (huek : List (HuekRow Geom))
    (c : Catchment Geom) : Except String Frame :=
  let df := categoryFrame (clip iA huek c.geom) c.gauge_id (fun a => a.LChar_bez) chCats
  if check_extracted_values df "aqui" then Except.ok df else Except.error "AssertionError"

/-- `extract_ha_from_huek` (lines 114-152), checked with category `"cavity"`. -/
def extract_ha_from_huek {Geom : Type} (iA : Geom → Geom → ℚ) (huek : List (HuekRow Geom))
    (c : Catchment Geom) : Except String Frame :=
  let df := categoryFrame (clip iA huek c.geom) c.gauge_id (fun a => a.HA_bez) haCats
  if check_extracted_values df "cavity" then Except.ok df else Except.error "AssertionError"

/-- `extract_vf_from_huek` (lines 155-191), checked with `"consolidation"`. -/
def extract_vf_from_huek {Geom : Type} (iA : Geom → Geom → ℚ) (huek : List (HuekRow Geom))
    (c : Catchment Geom) : Except String Frame :=
  let df := categoryFrame (clip iA huek c.geom) c.gauge_id (fun a => a.VF_bez) vfCats
  if check_extracted_values df "consolidation" then Except.ok df else Except.error "AssertionError"

/-- `extract_ga_from_huek` (lines 194-231), checked with `"rocktype"`. -/
def extract_ga_from_huek {Geom : Type} (iA : Geom → Geom → ℚ) (huek : List (HuekRow Geom))
    (c : Catchment Geom) : Except String Frame :=
  let df := categoryFrame (clip iA huek c.geom) c.gauge_id (fun a => a.GA_bez) gaCats
  if check_extracted_values df "rocktype" then Except.ok df else Except.error "AssertionError"

/-- `extract_gc_from_huek` (lines 234-276), checked with
`"geochemical_rocktype"`. -/
def extract_gc_from_huek {Geom : Type} (iA : Geom → Geom → ℚ) (huek : List (HuekRow Geom))
    (c : Catchment Geom) : Except String Frame :=
  let df := categoryFrame (clip iA huek c.geom) c.gauge_id (fun a => a.GC_bez) gcCats
  if check_extracted_values df "geochemical_rocktype" then Except.ok df
  else Except.error "AssertionError"

/-- `pd.concat(frames, axis=1)` for frames sharing one index value (the six
single-row extractor results, line 323): the concatenation of the columns,
indexed like the first frame. -/
def concatCols (fs : List Frame) : Frame :=
  { index := (fs.headD emptyFrame).index,
    columns := (fs.map Frame.columns).flatten }

/-- Lines 325-331 and 333-339: collect the columns whose name contains
`pat`, assert all their values (flattened) are a single distinct value
(`len(set(...)) == 1`), append a column `newName` holding the values of the
first collected column, and drop the collected columns. -/
def collapseCols (df : Frame) (pat newName : String) : Except String Frame :=
  let sel := df.columns.filter (fun kv => strContains kv.1 pat)
  let cols := sel.map Prod.fst
  let vals := (sel.map Prod.snd).flatten
  if vals.dedup.length = 1 then
    Except.ok ((df.addCol newName ((df.lookup (cols.headD "")).getD [])).dropCols cols)
  else Except.error "AssertionError"

/-- The body of the per-catchment loop of
`extract_hydrogeology_attributes_huek` (lines 305-339): run the six
extractors (in source order ch, kf, ha, ga, vf, gc), merge their rows
column-wise in the order `[kf, ch, ha, vf, ga, gc]`, and collapse the
waterbody and no-data columns. -/
def processCatchment {Geom : Type} (iA : Geom → Geom → ℚ) (huek : List (HuekRow Geom))
    (c : Catchment Geom) : Except String Frame := do
  let df_ch ← extract_ch_from_huek iA huek c
  let df_kf ← extract_kf_from_huek iA huek c
  let df_ha ← extract_ha_from_huek iA huek c
  let df_ga ← extract_ga_from_huek iA huek c
  let df_vf ← extract_vf_from_huek iA huek c
  let df_gc ← extract_gc_from_huek iA huek c
  let df := concatCols [df_kf, df_ch, df_ha, df_vf, df_ga, df_gc]
  let df1 ← collapseCols df "waterbody" "waterbody_perc"
  let df2 ← collapseCols df1 "no_data" "no_data_perc"
  pure df2

/-- `pd.concat([df_all, df], axis=0)` (line 342): rows of `b` are appended
below the rows of `a`; columns are aligned by name (outer join, missing
cells `nan`), with `a`'s column order first. -/
def frameAppend (a b : Frame) : Frame :=
  { index := a.index ++ b.index,
    columns :=
      (a.columns.map (fun kv =>
        (kv.1, kv.2 ++ ((b.lookup kv.1).getD (List.replicate b.index.length FVal.nan)))))
      ++ ((b.columns.filter (fun kv => !((a.columns.map Prod.fst).contains kv.1))).map
            (fun kv => (kv.1, List.replicate a.index.length FVal.nan ++ kv.2))) }

/-- The accumulating `for` loop of lines 304-342: process each catchment in
iteration order and append its merged row to the accumulator. -/
def aggLoop {Geom : Type} (iA : Geom → Geom → ℚ) (huek : List (HuekRow Geom)) :
    List (Catchment Geom) → Frame → Except String Frame
  | [], acc => Except.ok acc
  | c :: rest, acc => do
      let df ← processCatchment iA huek c
      aggLoop iA huek rest (frameAppend acc df)

/-- `df.round(2)` (line 345): round every numeric cell to 2 decimals. -/
def frameRound2 (df : Frame) : Frame :=
  { df with columns := df.columns.map (fun kv => (kv.1, kv.2.map fround2)) }

/-- `extract_hydrogeology_attributes_huek` (lines 279-347).  The
reprojection `catchments.to_crs(huek.crs)` (line 299) rebinds only the
local name to a fresh collection in the base map's coordinate reference; in
this embedding geometries are abstract values already measured by the one
intersection-area function `iA`, so the reprojected collection is the input
collection itself. -/
def extract_hydrogeology_attributes_huek {Geom : Type} (iA : Geom → Geom → ℚ)
    (huek : List (HuekRow Geom)) (catchments : List (Catchment Geom)) : Except String Frame := do
  let dfAll ← aggLoop iA huek catchments emptyFrame
  pure (frameRound2 dfAll)

/-- The caller's two input collections (`run.py` lines 20-21), threaded
explicitly to make the aggregator's effect on its inputs visible. -/
structure Store (Geom : Type) where
  huek : List (HuekRow Geom)
  catchments : List (Catchment Geom)
deriving DecidableEq, Repr

/-- State-passing form of the aggregator call: the source's only operations
on the caller's collections are reads, `to_crs` (returns a fresh collection,
line 299, rebinding only the local name) and `clip` (non-mutating); so the
call returns its result and the caller's store unchanged. -/
def runAggregator {Geom : Type} (iA : Geom → Geom → ℚ) (st : Store Geom) :
    Except String Frame × Store Geom :=
  (extract_hydrogeology_attributes_huek iA st.huek st.catchments, st)

/-- The tolerance test actually applied by the Consistency Checker:
`assert_almost_equal(sum, 100, decimal=1)`, i.e. the sum is a finite number
within `1.5 * 10 ^ (-1) = 0.15` of `100` (strictly). -/
def sumWithinTol (v : FVal) : Bool := assertAlmostEqual v 100 1

/-- Concrete intersection-area model on `Geom := ℚ`: each base-map
polygon's geometry directly records the area of its intersection with the
(single) catchment. -/
def iaQ : ℚ → ℚ → ℚ := fun g _ => g

/-- Attributes taking the waterbody label in all six fields. -/
def attrsG : HuekAttrs :=
  { kf_bez := "Gewässer", LChar_bez := "Gewässer", HA_bez := "Gewässer",
    VF_bez := "Gewässer", GA_bez := "Gewässer", GC_bez := "Gewässer" }

/-- A base map with one all-waterbody polygon fully covering the catchment. -/
def huekG : List (HuekRow ℚ) := [{ attrs := attrsG, geometry := 1 }]

/-- A concrete catchment. -/
def cG : Catchment ℚ := { gauge_id := "g1", geom := 1 }

/-- Attributes whose permeability label is outside the fixed `kf`
vocabulary (all other fields waterbody). -/
def attrsU : HuekAttrs :=
  { kf_bez := "Sonstige", LChar_bez := "Gewässer", HA_bez := "Gewässer",
    VF_bez := "Gewässer", GA_bez := "Gewässer", GC_bez := "Gewässer" }

/-- A base map where 99.88% of the clipped area is waterbody and 0.12%
carries an unrecognised permeability label. -/
def huekC1 : List (HuekRow ℚ) :=
  [{ attrs := attrsG, geometry := 9988 }, { attrs := attrsU, geometry := 12 }]

/-- The merged per-catchment frame of line 323:
`pd.concat([df_kf, df_ch, df_ha, df_vf, df_ga, df_gc], axis=1)` on the six
extractor rows. -/
def mergedFrame (clipped : List ClippedRow) (gid : String) : Frame :=
  concatCols [categoryFrame clipped gid (fun a => a.kf_bez) kfCats,
    categoryFrame clipped gid (fun a => a.LChar_bez) chCats,
    categoryFrame clipped gid (fun a => a.HA_bez) haCats,
    categoryFrame clipped gid (fun a => a.VF_bez) vfCats,
    categoryFrame clipped gid (fun a => a.GA_bez) gaCats,
    categoryFrame clipped gid (fun a => a.GC_bez) gcCats]

/-- The six per-extractor waterbody column names, in merged order. -/
def wbNames : List String :=
  ["kf_waterbody_perc", "aquifer_waterbody_perc", "cavity_waterbody_perc",
   "consolidation_waterbody_perc", "rocktype_waterbody_perc",
   "geochemical_rocktype_waterbody_perc"]

/-- The six per-extractor no-data column names, in merged order. -/
def ndNames : List String :=
  ["kf_no_data_perc", "aquifer_no_data_perc", "cavity_no_data_perc",
   "consolidation_no_data_perc", "rocktype_no_data_perc",
   "geochemical_rocktype_no_data_perc"]

/-- The frame produced by the waterbody collapse (lines 325-331) when its
assertion holds: one `waterbody_perc` column holding the first waterbody
column's value, the six originals dropped. -/
def wbCollapsed (clipped : List ClippedRow) (gid : String) : Frame :=
  ((mergedFrame clipped gid).addCol "waterbody_perc"
    [fieldPerc clipped (fun a => a.kf_bez) "Gewässer"]).dropCols wbNames

/-- The merged row after both collapses (lines 325-339) when both
assertions hold. -/
def fullCollapsed (clipped : List ClippedRow) (gid : String) : Frame :=
  ((wbCollapsed clipped gid).addCol "no_data_perc"
    [fieldPerc clipped (fun a => a.kf_bez) "keine Angaben"]).dropCols ndNames

/-- A two-row frame whose first row's `kf` columns sum to `100` while its
second row's sum to `15`. -/
def dfTwo : Frame :=
  { index := ["a", "b"],
    columns := [("kf_a", [FVal.num 60, FVal.num 7]), ("kf_b", [FVal.num 40, FVal.num 8])] }

/-- The frame `dfTwo` restricted to its first row. -/
def dfOne : Frame :=
  { index := ["a"], columns := [("kf_a", [FVal.num 60]), ("kf_b", [FVal.num 40])] }

/-- The six extractors agree on the waterbody percentage: each extractor's
`Gewässer` cell equals the permeability extractor's. -/
def wbAgree (clipped : List ClippedRow) : Prop :=
  fieldPerc clipped (fun a => a.LChar_bez) "Gewässer"
      = fieldPerc clipped (fun a => a.kf_bez) "Gewässer"
    ∧ fieldPerc clipped (fun a => a.HA_bez) "Gewässer"
      = fieldPerc clipped (fun a => a.kf_bez) "Gewässer"
    ∧ fieldPerc clipped (fun a => a.VF_bez) "Gewässer"
      = fieldPerc clipped (fun a => a.kf_bez) "Gewässer"
    ∧ fieldPerc clipped (fun a => a.GA_bez) "Gewässer"
      = fieldPerc clipped (fun a => a.kf_bez) "Gewässer"
    ∧ fieldPerc clipped (fun a => a.GC_bez) "Gewässer"
      = fieldPerc clipped (fun a => a.kf_bez) "Gewässer"

/-- The six extractors agree on the no-data percentage. -/
def ndAgree (clipped : List ClippedRow) : Prop :=
  fieldPerc clipped (fun a => a.LChar_bez) "keine Angaben"
      = fieldPerc clipped (fun a => a.kf_bez) "keine Angaben"
    ∧ fieldPerc clipped (fun a => a.HA_bez) "keine Angaben"
      = fieldPerc clipped (fun a => a.kf_bez) "keine Angaben"
    ∧ fieldPerc clipped (fun a => a.VF_bez) "keine Angaben"
      = fieldPerc clipped (fun a => a.kf_bez) "keine Angaben"
    ∧ fieldPerc clipped (fun a => a.GA_bez) "keine Angaben"
      = fieldPerc clipped (fun a => a.kf_bez) "keine Angaben"
    ∧ fieldPerc clipped (fun a => a.GC_bez) "keine Angaben"
      = fieldPerc clipped (fun a => a.kf_bez) "keine Angaben"

theorem checkGate_ok {f df : Frame} {p : String} :
    (if check_extracted_values f p then Except.ok f else Except.error "AssertionError") =
        (Except.ok df : Except String Frame) ↔
      check_extracted_values f p = true ∧ df = f := by
  cases h : check_extracted_values f p <;> simp [h, eq_comm]

theorem extract_kf_ok_iff {Geom : Type} {iA : Geom → Geom → ℚ} {huek : List (HuekRow Geom)}
    {c : Catchment Geom} {df : Frame} :
    extract_kf_from_huek iA huek c = Except.ok df ↔
      check_extracted_values (categoryFrame (clip iA huek c.geom) c.gauge_id
        (fun a => a.kf_bez) kfCats) "kf" = true ∧
      df = categoryFrame (clip iA huek c.geom) c.gauge_id (fun a => a.kf_bez) kfCats := by
  unfold extract_kf_from_huek; exact checkGate_ok

theorem extract_ch_ok_iff {Geom : Type} {iA : Geom → Geom → ℚ} {huek : List (HuekRow Geom)}
    {c : Catchment Geom} {df : Frame} :
    extract_ch_from_huek iA huek c = Except.ok df ↔
      check_extracted_values (categoryFrame (clip iA huek c.geom) c.gauge_id
        (fun a => a.LChar_bez) chCats) "aqui" = true ∧
      df = categoryFrame (clip iA huek c.geom) c.gauge_id (fun a => a.LChar_bez) chCats := by
  unfold extract_ch_from_huek; exact checkGate_ok

theorem extract_ha_ok_iff {Geom : Type} {iA : Geom → Geom → ℚ} {huek : List (HuekRow Geom)}
    {c : Catchment Geom} {df : Frame} :
    extract_ha_from_huek iA huek c = Except.ok df ↔
      check_extracted_values (categoryFrame (clip iA huek c.geom) c.gauge_id
        (fun a => a.HA_bez) haCats) "cavity" = true ∧
      df = categoryFrame (clip iA huek c.geom) c.gauge_id (fun a => a.HA_bez) haCats := by
  unfold extract_ha_from_huek; exact checkGate_ok

theorem extract_vf_ok_iff {Geom : Type} {iA : Geom → Geom → ℚ} {huek : List (HuekRow Geom)}
    {c : Catchment Geom} {df : Frame} :
    extract_vf_from_huek iA huek c = Except.ok df ↔
      check_extracted_values (categoryFrame (clip iA huek c.geom) c.gauge_id
        (fun a => a.VF_bez) vfCats) "consolidation" = true ∧
      df = categoryFrame (clip iA huek c.geom) c.gauge_id (fun a => a.VF_bez) vfCats := by
  unfold extract_vf_from_huek; exact checkGate_ok

theorem extract_ga_ok_iff {Geom : Type} {iA : Geom → Geom → ℚ} {huek : List (HuekRow Geom)}
    {c : Catchment Geom} {df : Frame} :
    extract_ga_from_huek iA huek c = Except.ok df ↔
      check_extracted_values (categoryFrame (clip iA huek c.geom) c.gauge_id
        (fun a => a.GA_bez) gaCats) "rocktype" = true ∧
      df = categoryFrame (clip iA huek c.geom) c.gauge_id (fun a => a.GA_bez) gaCats := by
  unfold extract_ga_from_huek; exact checkGate_ok

theorem extract_gc_ok_iff {Geom : Type} {iA : Geom → Geom → ℚ} {huek : List (HuekRow Geom)}
    {c : Catchment Geom} {df : Frame} :
    extract_gc_from_huek iA huek c = Except.ok df ↔
      check_extracted_values (categoryFrame (clip iA huek c.geom) c.gauge_id
        (fun a => a.GC_bez) gcCats) "geochemical_rocktype" = true ∧
      df = categoryFrame (clip iA huek c.geom) c.gauge_id (fun a => a.GC_bez) gcCats := by
  unfold extract_gc_from_huek; exact checkGate_ok

theorem check_of_ne_nil {df : Frame} {cat : String} (h : df.index ≠ []) :
    check_extracted_values df cat = sumWithinTol (firstRowPrefixSum df cat) := by
  simp [check_extracted_values, sumWithinTol, List.isEmpty_iff, h]

theorem sumWithinTol_num_iff (q : ℚ) : sumWithinTol (FVal.num q) = true ↔ |100 - q| < 3 / 20 := by
  simp only [sumWithinTol, assertAlmostEqual, decide_eq_true_eq]
  norm_num

theorem categoryFrame_index (clipped : List ClippedRow) (gid : String)
    (field : HuekAttrs → String) (cats : List (String × String)) :
    (categoryFrame clipped gid field cats).index = [gid] := rfl

theorem firstRowPrefixSum_categoryFrame (clipped : List ClippedRow) (gid : String)
    (field : HuekAttrs → String) (cats : List (String × String)) (cat : String)
    (h : ∀ nv ∈ cats, strStarts nv.1 cat = true) :
    firstRowPrefixSum (categoryFrame clipped gid field cats) cat
      = pandasSum (cats.map (fun nv => fieldPerc clipped field nv.2)) := by
  unfold firstRowPrefixSum categoryFrame
  rw [List.filter_map, List.filter_eq_self.mpr]
  · rw [List.map_map]
    rfl
  · intro nv hnv
    simpa using h nv (by simpa using hnv)

theorem c1_sum_eval : firstRowPrefixSum (categoryFrame (clip iaQ huekC1 cG.geom) cG.gauge_id
    (fun a => a.kf_bez) kfCats) "kf" = FVal.num (2497 / 25) := by
  rw [firstRowPrefixSum_categoryFrame _ _ _ _ _ (by decide)]
  simp [kfCats, clip, huekC1, cG, attrsG, attrsU, iaQ, fieldPerc, areaWhere, areaTotal,
    fmul100, fdiv, pandasSum, isNan]
  norm_num [fadd]

/-- C1, counterexample: on the base map `huekC1` (99.88% waterbody, 0.12%
of the clipped area carrying a permeability label outside the fixed
vocabulary), `extract_kf_from_huek` returns its row without raising, yet
the row's `kf` columns sum to `99.88`, which deviates from `100` by `0.12`,
more than the claimed absolute tolerance of `0.1`.  So a returned row need
not sum to `100 ± 0.1`, and the Consistency Checker does not raise at a
deviation above `0.1`. -/
theorem c1_counterexample :
    extract_kf_from_huek iaQ huekC1 cG = Except.ok (categoryFrame (clip iaQ huekC1 cG.geom)
        cG.gauge_id (fun a => a.kf_bez) kfCats)
    ∧ firstRowPrefixSum (categoryFrame (clip iaQ huekC1 cG.geom) cG.gauge_id
        (fun a => a.kf_bez) kfCats) "kf" = FVal.num (2497 / 25)
    ∧ ¬ |(100 : ℚ) - 2497 / 25| ≤ 1 / 10 := by
  have hcheck : check_extracted_values (categoryFrame (clip iaQ huekC1 cG.geom) cG.gauge_id
      (fun a => a.kf_bez) kfCats) "kf" = true := by
    rw [check_of_ne_nil (by simp [categoryFrame_index]), c1_sum_eval,
      sumWithinTol_num_iff]
    norm_num [abs_of_pos]
  exact ⟨extract_kf_ok_iff.mpr ⟨hcheck, rfl⟩, c1_sum_eval, by norm_num [abs_of_pos]⟩

/-- C1, amended: the Consistency Checker's tolerance is numpy's
`assert_almost_equal` rule for `decimal=1`, i.e. strict deviation below
`1.5 * 10 ^ (-1) = 0.15` (not `0.1`): a finite first-row prefix-column sum
passes exactly when `|100 - sum| < 0.15`; for any nonempty frame the
checker raises exactly when the first-row prefix sum fails that test; and
every row an extractor returns without raising passes it for the
extractor's own prefix. -/
theorem c1_tolerance_amended {Geom : Type} (iA : Geom → Geom → ℚ)
    (huek : List (HuekRow Geom)) (c : Catchment Geom) :
    (∀ q : ℚ, sumWithinTol (FVal.num q) = true ↔ |100 - q| < 3 / 20)
    ∧ (∀ (df : Frame) (cat : String), df.index ≠ [] →
        (check_extracted_values df cat = false ↔
          sumWithinTol (firstRowPrefixSum df cat) = false))
    ∧ (∀ df : Frame, extract_kf_from_huek iA huek c = Except.ok df →
        sumWithinTol (firstRowPrefixSum df "kf") = true)
    ∧ (∀ df : Frame, extract_ch_from_huek iA huek c = Except.ok df →
        sumWithinTol (firstRowPrefixSum df "aqui") = true)
    ∧ (∀ df : Frame, extract_ha_from_huek iA huek c = Except.ok df →
        sumWithinTol (firstRowPrefixSum df "cavity") = true)
    ∧ (∀ df : Frame, extract_vf_from_huek iA huek c = Except.ok df →
        sumWithinTol (firstRowPrefixSum df "consolidation") = true)
    ∧ (∀ df : Frame, extract_ga_from_huek iA huek c = Except.ok df →
        sumWithinTol (firstRowPrefixSum df "rocktype") = true)
    ∧ (∀ df : Frame, extract_gc_from_huek iA huek c = Except.ok df →
        sumWithinTol (firstRowPrefixSum df "geochemical_rocktype") = true) := by
  refine ⟨sumWithinTol_num_iff, ?_, ?_, ?_, ?_, ?_, ?_, ?_⟩
  · intro df cat h
    rw [check_of_ne_nil h]
  · intro df h
    obtain ⟨hc, rfl⟩ := extract_kf_ok_iff.mp h
    rwa [check_of_ne_nil (by simp [categoryFrame_index])] at hc
  · intro df h
    obtain ⟨hc, rfl⟩ := extract_ch_ok_iff.mp h
    rwa [check_of_ne_nil (by simp [categoryFrame_index])] at hc
  · intro df h
    obtain ⟨hc, rfl⟩ := extract_ha_ok_iff.mp h
    rwa [check_of_ne_nil (by simp [categoryFrame_index])] at hc
  · intro df h
    obtain ⟨hc, rfl⟩ := extract_vf_ok_iff.mp h
    rwa [check_of_ne_nil (by simp [categoryFrame_index])] at hc
  · intro df h
    obtain ⟨hc, rfl⟩ := extract_ga_ok_iff.mp h
    rwa [check_of_ne_nil (by simp [categoryFrame_index])] at hc
  · intro df h
    obtain ⟨hc, rfl⟩ := extract_gc_ok_iff.mp h
    rwa [check_of_ne_nil (by simp [categoryFrame_index])] at hc

/-- Witness for C1: the amended theorem applied at the concrete input
`huekC1`/`cG`, discharging the extractor hypothesis on the row it returns
and the nonempty-frame hypothesis of the checker characterisation. -/
theorem c1_tolerance_amended_witness :
    sumWithinTol (firstRowPrefixSum (categoryFrame (clip iaQ huekC1 cG.geom) cG.gauge_id
        (fun a => a.kf_bez) kfCats) "kf") = true
    ∧ (check_extracted_values (categoryFrame (clip iaQ huekC1 cG.geom) cG.gauge_id
        (fun a => a.kf_bez) kfCats) "kf" = false ↔
        sumWithinTol (firstRowPrefixSum (categoryFrame (clip iaQ huekC1 cG.geom) cG.gauge_id
          (fun a => a.kf_bez) kfCats) "kf") = false) := by
  have hcheck : check_extracted_values (categoryFrame (clip iaQ huekC1 cG.geom) cG.gauge_id
      (fun a => a.kf_bez) kfCats) "kf" = true := by
    rw [check_of_ne_nil (by simp [categoryFrame_index]), c1_sum_eval,
      sumWithinTol_num_iff]
    norm_num [abs_of_pos]
  exact ⟨(c1_tolerance_amended iaQ huekC1 cG).2.2.1 _ (extract_kf_ok_iff.mpr ⟨hcheck, rfl⟩),
    (c1_tolerance_amended iaQ huekC1 cG).2.1 _ "kf" (by simp [categoryFrame_index])⟩

theorem filteredHeads_eq (cat : String) : ∀ (xs ys : List (String × List FVal)),
    xs.map Prod.fst = ys.map Prod.fst →
    xs.map (fun kv => kv.2.headD FVal.nan) = ys.map (fun kv => kv.2.headD FVal.nan) →
    (xs.filter (fun kv => strStarts kv.1 cat)).map (fun kv => kv.2.headD FVal.nan)
      = (ys.filter (fun kv => strStarts kv.1 cat)).map (fun kv => kv.2.headD FVal.nan)
  | [], [], _, _ => rfl
  | x :: xs, y :: ys, hn, hh => by
    simp only [List.map_cons, List.cons.injEq] at hn hh
    rw [List.filter_cons, List.filter_cons, hn.1]
    cases hc : strStarts y.1 cat
    · simp only [hc, Bool.false_eq_true, if_false]
      exact filteredHeads_eq cat xs ys hn.2 hh.2
    · simp only [hc, if_true, List.map_cons, hh.1]
      rw [filteredHeads_eq cat xs ys hn.2 hh.2]

/-- C10: the Consistency Checker validates only row 0 of the frame it is
given.  For any frame with at least one row it succeeds exactly when row
0's prefix-column sum passes the tolerance test, and any frame with the
same column names and the same row-0 values — whatever its other rows —
gets the same verdict. -/
theorem c10_check_first_row_only (df df' : Frame) (cat : String)
    (h : df.index ≠ []) (h' : df'.index ≠ [])
    (hnames : df.columns.map Prod.fst = df'.columns.map Prod.fst)
    (hrow0 : df.columns.map (fun kv => kv.2.headD FVal.nan)
      = df'.columns.map (fun kv => kv.2.headD FVal.nan)) :
    (check_extracted_values df cat = true ↔
      sumWithinTol (firstRowPrefixSum df cat) = true)
    ∧ check_extracted_values df' cat = check_extracted_values df cat := by
  constructor
  · rw [check_of_ne_nil h]
  · rw [check_of_ne_nil h, check_of_ne_nil h']
    unfold firstRowPrefixSum
    rw [filteredHeads_eq cat df'.columns df.columns hnames.symm hrow0.symm]

/-- Witness for C10: the theorem applied to the concrete frames `dfTwo`
(two rows, second row far from 100) and `dfOne` (its first row only). -/
theorem c10_check_first_row_only_witness :
    (check_extracted_values dfTwo "kf" = true ↔
      sumWithinTol (firstRowPrefixSum dfTwo "kf") = true)
    ∧ check_extracted_values dfOne "kf" = check_extracted_values dfTwo "kf" :=
  c10_check_first_row_only dfTwo dfOne "kf" (by decide) (by decide) rfl rfl

theorem foldl_fadd_shapes : ∀ (l : List FVal) (acc : FVal), (∀ v ∈ l, ∃ b, v = FVal.inf b) →
    (acc = FVal.num 0 ∨ acc = FVal.nan ∨ ∃ b, acc = FVal.inf b) →
    (l.foldl fadd acc = FVal.num 0 ∨ l.foldl fadd acc = FVal.nan
      ∨ ∃ b, l.foldl fadd acc = FVal.inf b)
  | [], _, _, hacc => hacc
  | v :: l, acc, hl, hacc => by
    obtain ⟨b, rfl⟩ := hl v (List.mem_cons_self _ _)
    rw [List.foldl_cons]
    apply foldl_fadd_shapes l _ (fun w hw => hl w (List.mem_cons_of_mem _ hw))
    rcases hacc with h | h | ⟨b', h⟩ <;> subst h
    · right; right; exact ⟨b, rfl⟩
    · right; left; rfl
    · by_cases hbb : b' = b
      · subst hbb; right; right; exact ⟨b', by simp [fadd]⟩
      · right; left; simp [fadd, hbb]

theorem badSum (vs : List FVal) (h : ∀ v ∈ vs, v = FVal.nan ∨ ∃ b, v = FVal.inf b) :
    assertAlmostEqual (pandasSum vs) 100 1 = false := by
  unfold pandasSum
  have hf : ∀ v ∈ vs.filter (fun v => !isNan v), ∃ b, v = FVal.inf b := by
    intro v hv
    rw [List.mem_filter] at hv
    rcases h v hv.1 with rfl | hb
    · simp [isNan] at hv
    · exact hb
  rcases foldl_fadd_shapes _ (FVal.num 0) hf (Or.inl rfl) with h0 | h0 | ⟨b, h0⟩ <;>
    rw [h0] <;> simp [assertAlmostEqual] <;> norm_num [abs_of_pos]

theorem fieldPerc_of_total_zero {clipped : List ClippedRow} (field : HuekAttrs → String)
    (v : String) (h : areaTotal clipped = 0) :
    fieldPerc clipped field v = FVal.nan ∨ ∃ b, fieldPerc clipped field v = FVal.inf b := by
  unfold fieldPerc fdiv
  rw [h]
  by_cases hw : areaWhere clipped (fun r => field r.attrs == v) = 0
  · left; simp [hw, fmul100]
  · right
    exact ⟨decide (0 < areaWhere clipped (fun r => field r.attrs == v)), by simp [hw, fmul100]⟩

theorem check_categoryFrame_of_total_zero {clipped : List ClippedRow} (gid : String)
    (field : HuekAttrs → String) (cats : List (String × String)) (cat : String)
    (hpre : ∀ nv ∈ cats, strStarts nv.1 cat = true) (h : areaTotal clipped = 0) :
    check_extracted_values (categoryFrame clipped gid field cats) cat = false := by
  rw [check_of_ne_nil (by simp [categoryFrame_index]),
    sumWithinTol, firstRowPrefixSum_categoryFrame _ _ _ _ _ hpre]
  apply badSum
  intro w hw
  rw [List.mem_map] at hw
  obtain ⟨nv, _, rfl⟩ := hw
  exact fieldPerc_of_total_zero field nv.2 h

/-- C4: a catchment whose intersection with the base map has zero total
area makes each of the six extractors raise (the percentage division is
undefined, every cell is `nan`/infinite, the skip-`nan` row sum cannot pass
the tolerance test), so no numeric row of zeros and no silent `nan` row is
returned. -/
theorem c4_zero_coverage_raises {Geom : Type} (iA : Geom → Geom → ℚ)
    (huek : List (HuekRow Geom)) (c : Catchment Geom)
    (h : areaTotal (clip iA huek c.geom) = 0) :
    extract_kf_from_huek iA huek c = Except.error "AssertionError"
    ∧ extract_ch_from_huek iA huek c = Except.error "AssertionError"
    ∧ extract_ha_from_huek iA huek c = Except.error "AssertionError"
    ∧ extract_vf_from_huek iA huek c = Except.error "AssertionError"
    ∧ extract_ga_from_huek iA huek c = Except.error "AssertionError"
    ∧ extract_gc_from_huek iA huek c = Except.error "AssertionError" := by
  have hkf := check_categoryFrame_of_total_zero c.gauge_id (fun a => a.kf_bez) kfCats
    "kf" (by decide) h
  have hch := check_categoryFrame_of_total_zero c.gauge_id (fun a => a.LChar_bez) chCats
    "aqui" (by decide) h
  have hha := check_categoryFrame_of_total_zero c.gauge_id (fun a => a.HA_bez) haCats
    "cavity" (by decide) h
  have hvf := check_categoryFrame_of_total_zero c.gauge_id (fun a => a.VF_bez) vfCats
    "consolidation" (by decide) h
  have hga := check_categoryFrame_of_total_zero c.gauge_id (fun a => a.GA_bez) gaCats
    "rocktype" (by decide) h
  have hgc := check_categoryFrame_of_total_zero c.gauge_id (fun a => a.GC_bez) gcCats
    "geochemical_rocktype" (by decide) h
  exact ⟨by simp [extract_kf_from_huek, hkf], by simp [extract_ch_from_huek, hch],
    by simp [extract_ha_from_huek, hha], by simp [extract_vf_from_huek, hvf],
    by simp [extract_ga_from_huek, hga], by simp [extract_gc_from_huek, hgc]⟩

/-- Witness for C4: an empty base map gives every catchment zero clipped
area, and all six extractors raise on it. -/
theorem c4_zero_coverage_raises_witness :
    extract_kf_from_huek iaQ ([] : List (HuekRow ℚ)) cG = Except.error "AssertionError"
    ∧ extract_ch_from_huek iaQ ([] : List (HuekRow ℚ)) cG = Except.error "AssertionError"
    ∧ extract_ha_from_huek iaQ ([] : List (HuekRow ℚ)) cG = Except.error "AssertionError"
    ∧ extract_vf_from_huek iaQ ([] : List (HuekRow ℚ)) cG = Except.error "AssertionError"
    ∧ extract_ga_from_huek iaQ ([] : List (HuekRow ℚ)) cG = Except.error "AssertionError"
    ∧ extract_gc_from_huek iaQ ([] : List (HuekRow ℚ)) cG = Except.error "AssertionError" :=
  c4_zero_coverage_raises iaQ [] cG rfl

theorem sum_filter_eq_sum_of_zero_off {l : List ClippedRow} {p : ClippedRow → Bool}
    (h : ∀ x ∈ l, p x = false → x.area = 0) :
    ((l.filter p).map ClippedRow.area).sum = (l.map ClippedRow.area).sum := by
  induction l with
  | nil => rfl
  | cons x l ih =>
    have ih' := ih (fun y hy => h y (List.mem_cons_of_mem _ hy))
    cases hx : p x
    · simp only [List.filter_cons, hx, Bool.false_eq_true, if_false, List.map_cons,
        List.sum_cons, ih', h x (List.mem_cons_self _ _) hx, zero_add]
    · simp only [List.filter_cons, hx, if_true, List.map_cons, List.sum_cons, ih']

theorem sum_filter_eq_zero_of_zero_on {l : List ClippedRow} {p : ClippedRow → Bool}
    (h : ∀ x ∈ l, p x = true → x.area = 0) :
    ((l.filter p).map ClippedRow.area).sum = 0 := by
  induction l with
  | nil => rfl
  | cons x l ih =>
    have ih' := ih (fun y hy => h y (List.mem_cons_of_mem _ hy))
    cases hx : p x
    · simp only [List.filter_cons, hx, Bool.false_eq_true, if_false, ih']
    · simp only [List.filter_cons, hx, if_true, List.map_cons, List.sum_cons, ih',
        h x (List.mem_cons_self _ _) hx, zero_add]

theorem fieldPerc_eq_num {clipped : List ClippedRow} (field : HuekAttrs → String) (v : String)
    (hne : areaTotal clipped ≠ 0) :
    fieldPerc clipped field v
      = FVal.num (100 * areaWhere clipped (fun r => field r.attrs == v) / areaTotal clipped) := by
  unfold fieldPerc fdiv
  rw [if_neg hne]
  simp [fmul100, mul_div_assoc]

/-- C3: with a non-zero total clipped area, every category column an
extractor produces equals `100 × (clipped area whose field equals the
category's label) ÷ (total clipped area)`; and for a catchment fully
contained in a single base-map polygon (every other polygon intersects it
with area zero), the polygon's own category gets `100` and every other
category value of that field gets `0`. -/
theorem c3_percentage_formula {Geom : Type} (iA : Geom → Geom → ℚ)
    (huek : List (HuekRow Geom)) (c : Catchment Geom) (gid : String)
    (field : HuekAttrs → String) (cats : List (String × String))
    (hne : areaTotal (clip iA huek c.geom) ≠ 0) :
    ((categoryFrame (clip iA huek c.geom) gid field cats).columns
      = cats.map (fun nv => (nv.1,
          [FVal.num (100 * areaWhere (clip iA huek c.geom) (fun r => field r.attrs == nv.2)
            / areaTotal (clip iA huek c.geom))])))
    ∧ (∀ p ∈ huek, (∀ q ∈ huek, q ≠ p → iA q.geometry c.geom = 0) →
        ∀ v, fieldPerc (clip iA huek c.geom) field v
          = if field p.attrs = v then FVal.num 100 else FVal.num 0) := by
  constructor
  · show cats.map _ = _
    simp only [fieldPerc_eq_num field _ hne]
  · intro p hp hz v
    by_cases hv : field p.attrs = v
    · have ht : areaWhere (clip iA huek c.geom) (fun r => field r.attrs == v)
          = areaTotal (clip iA huek c.geom) := by
        unfold areaWhere areaTotal
        apply sum_filter_eq_sum_of_zero_off
        intro x hx hpx
        rw [clip, List.mem_map] at hx
        obtain ⟨q, hq, rfl⟩ := hx
        by_cases hqp : q = p
        · subst hqp
          simp [hv] at hpx
        · exact hz q hq hqp
      rw [fieldPerc_eq_num field v hne, ht, mul_div_assoc, div_self hne, mul_one, if_pos hv]
    · have hw : areaWhere (clip iA huek c.geom) (fun r => field r.attrs == v) = 0 := by
        unfold areaWhere
        apply sum_filter_eq_zero_of_zero_on
        intro x hx hpx
        rw [clip, List.mem_map] at hx
        obtain ⟨q, hq, rfl⟩ := hx
        by_cases hqp : q = p
        · subst hqp
          simp only [beq_iff_eq] at hpx
          exact absurd hpx hv
        · exact hz q hq hqp
      rw [fieldPerc_eq_num field v hne, hw, mul_zero, zero_div, if_neg hv]

/-- Witness for C3: on the one-polygon base map `huekG` (category
`Gewässer` for the permeability field, fully covering catchment `cG`), the
formula part holds and the boundary part gives `100` for `Gewässer` and `0`
for `sehr hoch (>1E-2)`. -/
theorem c3_percentage_formula_witness :
    ((categoryFrame (clip iaQ huekG cG.geom) "g1" (fun a => a.kf_bez) kfCats).columns
      = kfCats.map (fun nv => (nv.1,
          [FVal.num (100 * areaWhere (clip iaQ huekG cG.geom) (fun r => r.attrs.kf_bez == nv.2)
            / areaTotal (clip iaQ huekG cG.geom))])))
    ∧ fieldPerc (clip iaQ huekG cG.geom) (fun a => a.kf_bez) "Gewässer" = FVal.num 100
    ∧ fieldPerc (clip iaQ huekG cG.geom) (fun a => a.kf_bez) "sehr hoch (>1E-2)"
        = FVal.num 0 := by
  have hne : areaTotal (clip iaQ huekG cG.geom) ≠ 0 := by
    norm_num [areaTotal, clip, huekG, iaQ]
  have h := c3_percentage_formula iaQ huekG cG "g1" (fun a => a.kf_bez) kfCats hne
  have hb := h.2 ⟨attrsG, 1⟩ (by simp [huekG]) (by simp [huekG])
  refine ⟨h.1, ?_, ?_⟩
  · simpa [attrsG] using hb "Gewässer"
  · simpa [attrsG] using hb "sehr hoch (>1E-2)"

theorem aggLoop_isOk_false {Geom : Type} (iA : Geom → Geom → ℚ) (huek : List (HuekRow Geom)) :
    ∀ (cs : List (Catchment Geom)) (acc : Frame),
    (∃ c ∈ cs, (processCatchment iA huek c).isOk = false) →
    (aggLoop iA huek cs acc).isOk = false
  | [], _, h => by simp at h
  | c :: cs, acc, h => by
    cases hpc : processCatchment iA huek c with
    | error e =>
      simp only [aggLoop, hpc]
      rfl
    | ok m =>
      obtain ⟨c', hc', hfail⟩ := h
      rcases List.mem_cons.mp hc' with rfl | hmem
      · rw [hpc] at hfail
        simp [Except.isOk, Except.toBool] at hfail
      · simp only [aggLoop, hpc, Except.bind]
        exact aggLoop_isOk_false iA huek cs _ ⟨c', hmem, hfail⟩

/-- C5: if processing any single catchment of the batch fails (its
`processCatchment` raises, for a consistency violation or a collapse
mismatch), the whole Aggregator raises and returns no table at all; rows
already accumulated for earlier catchments are not returned. -/
theorem c5_single_failure_aborts {Geom : Type} (iA : Geom → Geom → ℚ)
    (huek : List (HuekRow Geom)) (catchments : List (Catchment Geom))
    (h : ∃ c ∈ catchments, (processCatchment iA huek c).isOk = false) :
    (extract_hydrogeology_attributes_huek iA huek catchments).isOk = false := by
  have hl := aggLoop_isOk_false iA huek catchments emptyFrame h
  unfold extract_hydrogeology_attributes_huek
  cases hagg : aggLoop iA huek catchments emptyFrame with
  | error e => rfl
  | ok m =>
    rw [hagg] at hl
    simp [Except.isOk, Except.toBool] at hl

theorem processCatchment_fails_on_empty :
    (processCatchment iaQ ([] : List (HuekRow ℚ)) cG).isOk = false := by
  have hch := check_categoryFrame_of_total_zero cG.gauge_id (fun a => a.LChar_bez) chCats
    "aqui" (by decide) (rfl : areaTotal (clip iaQ [] cG.geom) = 0)
  simp only [processCatchment, extract_ch_from_huek, hch]
  rfl

/-- Witness for C5: with an empty base map the single catchment `cG`
fails, and the aggregator run over `[cG]` returns no table. -/
theorem c5_single_failure_aborts_witness :
    (extract_hydrogeology_attributes_huek iaQ ([] : List (HuekRow ℚ)) [cG]).isOk = false :=
  c5_single_failure_aborts iaQ [] [cG]
    ⟨cG, by simp, processCatchment_fails_on_empty⟩

theorem except_bind_ok {α β : Type} (a : α) (k : α → Except String β) :
    Except.bind (Except.ok a) k = k a := rfl

theorem bind_ok_frame (a : Frame) (k : Frame → Except String Frame) :
    (Except.ok a : Except String Frame) >>= k = k a := rfl

theorem merged_wb_filter (clipped : List ClippedRow) (gid : String) :
    (mergedFrame clipped gid).columns.filter (fun kv => strContains kv.1 "waterbody")
      = [("kf_waterbody_perc", [fieldPerc clipped (fun a => a.kf_bez) "Gewässer"]),
         ("aquifer_waterbody_perc", [fieldPerc clipped (fun a => a.LChar_bez) "Gewässer"]),
         ("cavity_waterbody_perc", [fieldPerc clipped (fun a => a.HA_bez) "Gewässer"]),
         ("consolidation_waterbody_perc", [fieldPerc clipped (fun a => a.VF_bez) "Gewässer"]),
         ("rocktype_waterbody_perc", [fieldPerc clipped (fun a => a.GA_bez) "Gewässer"]),
         ("geochemical_rocktype_waterbody_perc",
           [fieldPerc clipped (fun a => a.GC_bez) "Gewässer"])] := rfl

theorem merged_wb_lookup (clipped : List ClippedRow) (gid : String) :
    (mergedFrame clipped gid).lookup "kf_waterbody_perc"
      = some [fieldPerc clipped (fun a => a.kf_bez) "Gewässer"] := rfl

theorem wbCollapsed_nd_filter (clipped : List ClippedRow) (gid : String) :
    (wbCollapsed clipped gid).columns.filter (fun kv => strContains kv.1 "no_data")
      = [("kf_no_data_perc", [fieldPerc clipped (fun a => a.kf_bez) "keine Angaben"]),
         ("aquifer_no_data_perc", [fieldPerc clipped (fun a => a.LChar_bez) "keine Angaben"]),
         ("cavity_no_data_perc", [fieldPerc clipped (fun a => a.HA_bez) "keine Angaben"]),
         ("consolidation_no_data_perc", [fieldPerc clipped (fun a => a.VF_bez) "keine Angaben"]),
         ("rocktype_no_data_perc", [fieldPerc clipped (fun a => a.GA_bez) "keine Angaben"]),
         ("geochemical_rocktype_no_data_perc",
           [fieldPerc clipped (fun a => a.GC_bez) "keine Angaben"])] := rfl

theorem wbCollapsed_nd_lookup (clipped : List ClippedRow) (gid : String) :
    (wbCollapsed clipped gid).lookup "kf_no_data_perc"
      = some [fieldPerc clipped (fun a => a.kf_bez) "keine Angaben"] := rfl

theorem dedup_six {α : Type} [DecidableEq α] (a : α) :
    ([a, a, a, a, a, a] : List α).dedup = [a] := by
  simp [List.dedup_cons_of_mem]

theorem all_eq_of_dedup_length_one {α : Type} [DecidableEq α] {l : List α}
    (h : l.dedup.length = 1) : ∀ x ∈ l, ∀ y ∈ l, x = y := by
  obtain ⟨a, ha⟩ := List.length_eq_one.mp h
  intro x hx y hy
  have hx' := List.mem_dedup.mpr hx
  have hy' := List.mem_dedup.mpr hy
  rw [ha] at hx' hy'
  simp only [List.mem_singleton] at hx' hy'
  exact hx'.trans hy'.symm

theorem extract_kf_eq_ok {Geom : Type} {iA : Geom → Geom → ℚ} {huek : List (HuekRow Geom)}
    {c : Catchment Geom}
    (h : check_extracted_values (categoryFrame (clip iA huek c.geom) c.gauge_id
      (fun a => a.kf_bez) kfCats) "kf" = true) :
    extract_kf_from_huek iA huek c
      = Except.ok (categoryFrame (clip iA huek c.geom) c.gauge_id (fun a => a.kf_bez) kfCats) :=
  extract_kf_ok_iff.mpr ⟨h, rfl⟩

theorem extract_ch_eq_ok {Geom : Type} {iA : Geom → Geom → ℚ} {huek : List (HuekRow Geom)}
    {c : Catchment Geom}
    (h : check_extracted_values (categoryFrame (clip iA huek c.geom) c.gauge_id
      (fun a => a.LChar_bez) chCats) "aqui" = true) :
    extract_ch_from_huek iA huek c
      = Except.ok (categoryFrame (clip iA huek c.geom) c.gauge_id (fun a => a.LChar_bez) chCats) :=
  extract_ch_ok_iff.mpr ⟨h, rfl⟩

theorem extract_ha_eq_ok {Geom : Type} {iA : Geom → Geom → ℚ} {huek : List (HuekRow Geom)}
    {c : Catchment Geom}
    (h : check_extracted_values (categoryFrame (clip iA huek c.geom) c.gauge_id
      (fun a => a.HA_bez) haCats) "cavity" = true) :
    extract_ha_from_huek iA huek c
      = Except.ok (categoryFrame (clip iA huek c.geom) c.gauge_id (fun a => a.HA_bez) haCats) :=
  extract_ha_ok_iff.mpr ⟨h, rfl⟩

theorem extract_vf_eq_ok {Geom : Type} {iA : Geom → Geom → ℚ} {huek : List (HuekRow Geom)}
    {c : Catchment Geom}
    (h : check_extracted_values (categoryFrame (clip iA huek c.geom) c.gauge_id
      (fun a => a.VF_bez) vfCats) "consolidation" = true) :
    extract_vf_from_huek iA huek c
      = Except.ok (categoryFrame (clip iA huek c.geom) c.gauge_id (fun a => a.VF_bez) vfCats) :=
  extract_vf_ok_iff.mpr ⟨h, rfl⟩

theorem extract_ga_eq_ok {Geom : Type} {iA : Geom → Geom → ℚ} {huek : List (HuekRow Geom)}
    {c : Catchment Geom}
    (h : check_extracted_values (categoryFrame (clip iA huek c.geom) c.gauge_id
      (fun a => a.GA_bez) gaCats) "rocktype" = true) :
    extract_ga_from_huek iA huek c
      = Except.ok (categoryFrame (clip iA huek c.geom) c.gauge_id (fun a => a.GA_bez) gaCats) :=
  extract_ga_ok_iff.mpr ⟨h, rfl⟩

theorem extract_gc_eq_ok {Geom : Type} {iA : Geom → Geom → ℚ} {huek : List (HuekRow Geom)}
    {c : Catchment Geom}
    (h : check_extracted_values (categoryFrame (clip iA huek c.geom) c.gauge_id
      (fun a => a.GC_bez) gcCats) "geochemical_rocktype" = true) :
    extract_gc_from_huek iA huek c
      = Except.ok (categoryFrame (clip iA huek c.geom) c.gauge_id (fun a => a.GC_bez) gcCats) :=
  extract_gc_ok_iff.mpr ⟨h, rfl⟩

theorem processCatchment_eq {Geom : Type} {iA : Geom → Geom → ℚ} {huek : List (HuekRow Geom)}
    {c : Catchment Geom}
    (hkf : check_extracted_values (categoryFrame (clip iA huek c.geom) c.gauge_id
      (fun a => a.kf_bez) kfCats) "kf" = true)
    (hch : check_extracted_values (categoryFrame (clip iA huek c.geom) c.gauge_id
      (fun a => a.LChar_bez) chCats) "aqui" = true)
    (hha : check_extracted_values (categoryFrame (clip iA huek c.geom) c.gauge_id
      (fun a => a.HA_bez) haCats) "cavity" = true)
    (hvf : check_extracted_values (categoryFrame (clip iA huek c.geom) c.gauge_id
      (fun a => a.VF_bez) vfCats) "consolidation" = true)
    (hga : check_extracted_values (categoryFrame (clip iA huek c.geom) c.gauge_id
      (fun a => a.GA_bez) gaCats) "rocktype" = true)
    (hgc : check_extracted_values (categoryFrame (clip iA huek c.geom) c.gauge_id
      (fun a => a.GC_bez) gcCats) "geochemical_rocktype" = true) :
    processCatchment iA huek c
      = (collapseCols (mergedFrame (clip iA huek c.geom) c.gauge_id)
          "waterbody" "waterbody_perc" >>= fun df1 =>
            collapseCols df1 "no_data" "no_data_perc" >>= fun df2 => pure df2) := by
  unfold processCatchment
  rw [extract_kf_eq_ok hkf, extract_ch_eq_ok hch, extract_ha_eq_ok hha, extract_vf_eq_ok hvf,
    extract_ga_eq_ok hga, extract_gc_eq_ok hgc]
  simp only [bind_ok_frame]
  rfl

theorem collapse_wb_ok (clipped : List ClippedRow) (gid : String)
    (h2 : fieldPerc clipped (fun a => a.LChar_bez) "Gewässer"
        = fieldPerc clipped (fun a => a.kf_bez) "Gewässer")
    (h3 : fieldPerc clipped (fun a => a.HA_bez) "Gewässer"
        = fieldPerc clipped (fun a => a.kf_bez) "Gewässer")
    (h4 : fieldPerc clipped (fun a => a.VF_bez) "Gewässer"
        = fieldPerc clipped (fun a => a.kf_bez) "Gewässer")
    (h5 : fieldPerc clipped (fun a => a.GA_bez) "Gewässer"
        = fieldPerc clipped (fun a => a.kf_bez) "Gewässer")
    (h6 : fieldPerc clipped (fun a => a.GC_bez) "Gewässer"
        = fieldPerc clipped (fun a => a.kf_bez) "Gewässer") :
    collapseCols (mergedFrame clipped gid) "waterbody" "waterbody_perc"
      = Except.ok (wbCollapsed clipped gid) := by
  simp only [collapseCols]
  rw [merged_wb_filter]
  simp only [List.map_cons, List.map_nil, List.flatten_cons, List.flatten_nil,
    List.cons_append, List.nil_append, List.append_nil, List.headD_cons]
  rw [h2, h3, h4, h5, h6, dedup_six]
  rw [merged_wb_lookup]
  simp only [List.length_singleton, Option.getD_some, if_pos]
  rfl

theorem collapse_wb_err (clipped : List ClippedRow) (gid : String)
    (h : ¬ wbAgree clipped) :
    collapseCols (mergedFrame clipped gid) "waterbody" "waterbody_perc"
      = Except.error "AssertionError" := by
  simp only [collapseCols]
  rw [merged_wb_filter]
  simp only [List.map_cons, List.map_nil, List.flatten_cons, List.flatten_nil,
    List.cons_append, List.nil_append, List.append_nil]
  rw [if_neg]
  intro hlen
  have hall := all_eq_of_dedup_length_one hlen
  exact h ⟨hall _ (by simp) _ (by simp), hall _ (by simp) _ (by simp),
    hall _ (by simp) _ (by simp), hall _ (by simp) _ (by simp), hall _ (by simp) _ (by simp)⟩

theorem collapse_nd_ok (clipped : List ClippedRow) (gid : String)
    (g2 : fieldPerc clipped (fun a => a.LChar_bez) "keine Angaben"
        = fieldPerc clipped (fun a => a.kf_bez) "keine Angaben")
    (g3 : fieldPerc clipped (fun a => a.HA_bez) "keine Angaben"
        = fieldPerc clipped (fun a => a.kf_bez) "keine Angaben")
    (g4 : fieldPerc clipped (fun a => a.VF_bez) "keine Angaben"
        = fieldPerc clipped (fun a => a.kf_bez) "keine Angaben")
    (g5 : fieldPerc clipped (fun a => a.GA_bez) "keine Angaben"
        = fieldPerc clipped (fun a => a.kf_bez) "keine Angaben")
    (g6 : fieldPerc clipped (fun a => a.GC_bez) "keine Angaben"
        = fieldPerc clipped (fun a => a.kf_bez) "keine Angaben") :
    collapseCols (wbCollapsed clipped gid) "no_data" "no_data_perc"
      = Except.ok (fullCollapsed clipped gid) := by
  simp only [collapseCols]
  rw [wbCollapsed_nd_filter]
  simp only [List.map_cons, List.map_nil, List.flatten_cons, List.flatten_nil,
    List.cons_append, List.nil_append, List.append_nil, List.headD_cons]
  rw [g2, g3, g4, g5, g6, dedup_six]
  rw [wbCollapsed_nd_lookup]
  simp only [List.length_singleton, Option.getD_some, if_pos]
  rfl

theorem collapse_nd_err (clipped : List ClippedRow) (gid : String)
    (h : ¬ ndAgree clipped) :
    collapseCols (wbCollapsed clipped gid) "no_data" "no_data_perc"
      = Except.error "AssertionError" := by
  simp only [collapseCols]
  rw [wbCollapsed_nd_filter]
  simp only [List.map_cons, List.map_nil, List.flatten_cons, List.flatten_nil,
    List.cons_append, List.nil_append, List.append_nil]
  rw [if_neg]
  intro hlen
  have hall := all_eq_of_dedup_length_one hlen
  exact h ⟨hall _ (by simp) _ (by simp), hall _ (by simp) _ (by simp),
    hall _ (by simp) _ (by simp), hall _ (by simp) _ (by simp), hall _ (by simp) _ (by simp)⟩

/-- C2: given the six extractor rows for a catchment (their checks pass),
if the six waterbody percentages agree and the six no-data percentages
agree, the per-catchment merge produces exactly one `waterbody_perc`
column and one `no_data_perc` column holding the shared values, with all
six per-extractor waterbody and no-data columns dropped; if either group
of six values is not all identical, the merge halts with an error instead
of producing a row. -/
theorem c2_collapse {Geom : Type} (iA : Geom → Geom → ℚ) (huek : List (HuekRow Geom))
    (c : Catchment Geom)
    (hkf : check_extracted_values (categoryFrame (clip iA huek c.geom) c.gauge_id
      (fun a => a.kf_bez) kfCats) "kf" = true)
    (hch : check_extracted_values (categoryFrame (clip iA huek c.geom) c.gauge_id
      (fun a => a.LChar_bez) chCats) "aqui" = true)
    (hha : check_extracted_values (categoryFrame (clip iA huek c.geom) c.gauge_id
      (fun a => a.HA_bez) haCats) "cavity" = true)
    (hvf : check_extracted_values (categoryFrame (clip iA huek c.geom) c.gauge_id
      (fun a => a.VF_bez) vfCats) "consolidation" = true)
    (hga : check_extracted_values (categoryFrame (clip iA huek c.geom) c.gauge_id
      (fun a => a.GA_bez) gaCats) "rocktype" = true)
    (hgc : check_extracted_values (categoryFrame (clip iA huek c.geom) c.gauge_id
      (fun a => a.GC_bez) gcCats) "geochemical_rocktype" = true) :
    (wbAgree (clip iA huek c.geom) ∧ ndAgree (clip iA huek c.geom) →
      processCatchment iA huek c
          = Except.ok (fullCollapsed (clip iA huek c.geom) c.gauge_id)
        ∧ (fullCollapsed (clip iA huek c.geom) c.gauge_id).lookup "waterbody_perc"
          = some [fieldPerc (clip iA huek c.geom) (fun a => a.kf_bez) "Gewässer"]
        ∧ (fullCollapsed (clip iA huek c.geom) c.gauge_id).lookup "no_data_perc"
          = some [fieldPerc (clip iA huek c.geom) (fun a => a.kf_bez) "keine Angaben"]
        ∧ ((fullCollapsed (clip iA huek c.geom) c.gauge_id).columns.map Prod.fst).filter
            (fun n => strContains n "waterbody") = ["waterbody_perc"]
        ∧ ((fullCollapsed (clip iA huek c.geom) c.gauge_id).columns.map Prod.fst).filter
            (fun n => strContains n "no_data") = ["no_data_perc"])
    ∧ (¬(wbAgree (clip iA huek c.geom) ∧ ndAgree (clip iA huek c.geom)) →
      (processCatchment iA huek c).isOk = false) := by
  constructor
  · rintro ⟨⟨h2, h3, h4, h5, h6⟩, ⟨g2, g3, g4, g5, g6⟩⟩
    rw [processCatchment_eq hkf hch hha hvf hga hgc,
      collapse_wb_ok _ _ h2 h3 h4 h5 h6, bind_ok_frame,
      collapse_nd_ok _ _ g2 g3 g4 g5 g6, bind_ok_frame]
    exact ⟨rfl, rfl, rfl, rfl, rfl⟩
  · intro hne
    rw [processCatchment_eq hkf hch hha hvf hga hgc]
    by_cases hwb : wbAgree (clip iA huek c.geom)
    · obtain ⟨h2, h3, h4, h5, h6⟩ := hwb
      rw [collapse_wb_ok _ _ h2 h3 h4 h5 h6, bind_ok_frame,
        collapse_nd_err _ _ (fun hnd => hne ⟨⟨h2, h3, h4, h5, h6⟩, hnd⟩)]
      rfl
    · rw [collapse_wb_err _ _ hwb]
      rfl

theorem fieldPercG (f : HuekAttrs → String) (v : String) :
    fieldPerc (clip iaQ huekG cG.geom) f v
      = if f attrsG = v then FVal.num 100 else FVal.num 0 := by
  have hc : clip iaQ huekG cG.geom = [{ attrs := attrsG, area := 1 }] := rfl
  rw [hc]
  unfold fieldPerc areaWhere areaTotal
  by_cases hv : f attrsG = v
  · simp [hv, fdiv, fmul100]
  · simp [hv, fdiv, fmul100]

theorem checkG_kf : check_extracted_values (categoryFrame (clip iaQ huekG cG.geom) cG.gauge_id
    (fun a => a.kf_bez) kfCats) "kf" = true := by
  rw [check_of_ne_nil (by simp [categoryFrame_index]),
    firstRowPrefixSum_categoryFrame _ _ _ _ _ (by decide)]
  rw [sumWithinTol]
  simp [kfCats, fieldPercG, attrsG, pandasSum, isNan, fadd, assertAlmostEqual]

theorem checkG_ch : check_extracted_values (categoryFrame (clip iaQ huekG cG.geom) cG.gauge_id
    (fun a => a.LChar_bez) chCats) "aqui" = true := by
  rw [check_of_ne_nil (by simp [categoryFrame_index]),
    firstRowPrefixSum_categoryFrame _ _ _ _ _ (by decide)]
  rw [sumWithinTol]
  simp [chCats, fieldPercG, attrsG, pandasSum, isNan, fadd, assertAlmostEqual]

theorem checkG_ha : check_extracted_values (categoryFrame (clip iaQ huekG cG.geom) cG.gauge_id
    (fun a => a.HA_bez) haCats) "cavity" = true := by
  rw [check_of_ne_nil (by simp [categoryFrame_index]),
    firstRowPrefixSum_categoryFrame _ _ _ _ _ (by decide)]
  rw [sumWithinTol]
  simp [haCats, fieldPercG, attrsG, pandasSum, isNan, fadd, assertAlmostEqual]

theorem checkG_vf : check_extracted_values (categoryFrame (clip iaQ huekG cG.geom) cG.gauge_id
    (fun a => a.VF_bez) vfCats) "consolidation" = true := by
  rw [check_of_ne_nil (by simp [categoryFrame_index]),
    firstRowPrefixSum_categoryFrame _ _ _ _ _ (by decide)]
  rw [sumWithinTol]
  simp [vfCats, fieldPercG, attrsG, pandasSum, isNan, fadd, assertAlmostEqual]

theorem checkG_ga : check_extracted_values (categoryFrame (clip iaQ huekG cG.geom) cG.gauge_id
    (fun a => a.GA_bez) gaCats) "rocktype" = true := by
  rw [check_of_ne_nil (by simp [categoryFrame_index]),
    firstRowPrefixSum_categoryFrame _ _ _ _ _ (by decide)]
  rw [sumWithinTol]
  simp [gaCats, fieldPercG, attrsG, pandasSum, isNan, fadd, assertAlmostEqual]

theorem checkG_gc : check_extracted_values (categoryFrame (clip iaQ huekG cG.geom) cG.gauge_id
    (fun a => a.GC_bez) gcCats) "geochemical_rocktype" = true := by
  rw [check_of_ne_nil (by simp [categoryFrame_index]),
    firstRowPrefixSum_categoryFrame _ _ _ _ _ (by decide)]
  rw [sumWithinTol]
  simp [gcCats, fieldPercG, attrsG, pandasSum, isNan, fadd, assertAlmostEqual]

/-- Witness for C2: the collapse theorem applied at the concrete input
`huekG`/`cG`, the six consistency checks discharged by evaluation. -/
theorem c2_collapse_witness :
    (wbAgree (clip iaQ huekG cG.geom) ∧ ndAgree (clip iaQ huekG cG.geom) →
      processCatchment iaQ huekG cG
          = Except.ok (fullCollapsed (clip iaQ huekG cG.geom) cG.gauge_id)
        ∧ (fullCollapsed (clip iaQ huekG cG.geom) cG.gauge_id).lookup "waterbody_perc"
          = some [fieldPerc (clip iaQ huekG cG.geom) (fun a => a.kf_bez) "Gewässer"]
        ∧ (fullCollapsed (clip iaQ huekG cG.geom) cG.gauge_id).lookup "no_data_perc"
          = some [fieldPerc (clip iaQ huekG cG.geom) (fun a => a.kf_bez) "keine Angaben"]
        ∧ ((fullCollapsed (clip iaQ huekG cG.geom) cG.gauge_id).columns.map Prod.fst).filter
            (fun n => strContains n "waterbody") = ["waterbody_perc"]
        ∧ ((fullCollapsed (clip iaQ huekG cG.geom) cG.gauge_id).columns.map Prod.fst).filter
            (fun n => strContains n "no_data") = ["no_data_perc"])
    ∧ (¬(wbAgree (clip iaQ huekG cG.geom) ∧ ndAgree (clip iaQ huekG cG.geom)) →
      (processCatchment iaQ huekG cG).isOk = false) :=
  c2_collapse iaQ huekG cG checkG_kf checkG_ch checkG_ha checkG_vf checkG_ga checkG_gc

theorem bind_err_frame (e : String) (k : Frame → Except String Frame) :
    (Except.error e : Except String Frame) >>= k = Except.error e := rfl

theorem frameAppend_index (a b : Frame) : (frameAppend a b).index = a.index ++ b.index := rfl

theorem frameRound2_index (df : Frame) : (frameRound2 df).index = df.index := rfl

theorem collapseCols_ok_index {df m : Frame} {pat nn : String}
    (h : collapseCols df pat nn = Except.ok m) : m.index = df.index := by
  simp only [collapseCols] at h
  split at h
  · simp only [Except.ok.injEq] at h
    subst h
    rfl
  · simp at h

theorem processCatchment_ok_index {Geom : Type} {iA : Geom → Geom → ℚ}
    {huek : List (HuekRow Geom)} {c : Catchment Geom} {m : Frame}
    (h : processCatchment iA huek c = Except.ok m) : m.index = [c.gauge_id] := by
  unfold processCatchment at h
  cases hch : extract_ch_from_huek iA huek c with
  | error e => rw [hch, bind_err_frame] at h; exact Except.noConfusion h
  | ok dch =>
  rw [hch] at h
  simp only [bind_ok_frame] at h
  cases hkf : extract_kf_from_huek iA huek c with
  | error e => rw [hkf, bind_err_frame] at h; exact Except.noConfusion h
  | ok dkf =>
  rw [hkf] at h
  simp only [bind_ok_frame] at h
  cases hha : extract_ha_from_huek iA huek c with
  | error e => rw [hha, bind_err_frame] at h; exact Except.noConfusion h
  | ok dha =>
  rw [hha] at h
  simp only [bind_ok_frame] at h
  cases hga : extract_ga_from_huek iA huek c with
  | error e => rw [hga, bind_err_frame] at h; exact Except.noConfusion h
  | ok dga =>
  rw [hga] at h
  simp only [bind_ok_frame] at h
  cases hvf : extract_vf_from_huek iA huek c with
  | error e => rw [hvf, bind_err_frame] at h; exact Except.noConfusion h
  | ok dvf =>
  rw [hvf] at h
  simp only [bind_ok_frame] at h
  cases hgc : extract_gc_from_huek iA huek c with
  | error e => rw [hgc, bind_err_frame] at h; exact Except.noConfusion h
  | ok dgc =>
  rw [hgc] at h
  simp only [bind_ok_frame] at h
  cases h1 : collapseCols (concatCols [dkf, dch, dha, dvf, dga, dgc])
      "waterbody" "waterbody_perc" with
  | error e => rw [h1, bind_err_frame] at h; exact Except.noConfusion h
  | ok d1 =>
  rw [h1] at h
  simp only [bind_ok_frame] at h
  cases h2 : collapseCols d1 "no_data" "no_data_perc" with
  | error e => rw [h2, bind_err_frame] at h; exact Except.noConfusion h
  | ok d2 =>
  rw [h2] at h
  simp only [bind_ok_frame] at h
  rw [show (pure d2 : Except String Frame) = Except.ok d2 from rfl] at h
  simp only [Except.ok.injEq] at h
  subst h
  rw [collapseCols_ok_index h2, collapseCols_ok_index h1]
  have : (concatCols [dkf, dch, dha, dvf, dga, dgc]).index = dkf.index := rfl
  rw [this, (extract_kf_ok_iff.mp hkf).2]
  exact categoryFrame_index _ _ _ _

theorem aggLoop_ok_shape {Geom : Type} (iA : Geom → Geom → ℚ) (huek : List (HuekRow Geom)) :
    ∀ (cs : List (Catchment Geom)) (acc raw : Frame),
    aggLoop iA huek cs acc = Except.ok raw →
    ∃ rows : List Frame, cs.map (fun c => processCatchment iA huek c) = rows.map Except.ok
      ∧ raw = rows.foldl frameAppend acc
      ∧ raw.index = acc.index ++ cs.map (fun c => c.gauge_id)
  | [], acc, raw, h => by
    simp only [aggLoop, Except.ok.injEq] at h
    subst h
    exact ⟨[], rfl, rfl, by simp⟩
  | c :: cs, acc, raw, h => by
    simp only [aggLoop] at h
    cases hpc : processCatchment iA huek c with
    | error e => rw [hpc, bind_err_frame] at h; exact Except.noConfusion h
    | ok m =>
      rw [hpc] at h
      simp only [bind_ok_frame] at h
      obtain ⟨rows', h1, h2, h3⟩ := aggLoop_ok_shape iA huek cs (frameAppend acc m) raw h
      refine ⟨m :: rows', ?_, ?_, ?_⟩
      · simp [hpc, h1]
      · simpa using h2
      · rw [h3, frameAppend_index, processCatchment_ok_index hpc]
        simp

/-- C6: the Aggregator's computation is the vertical concatenation, in
iteration order, of one merged row per catchment, rounded to 2 decimal
places at the very end, and on success the output table is indexed by the
catchment identifiers in iteration order. -/
theorem c6_output_shape {Geom : Type} (iA : Geom → Geom → ℚ) (huek : List (HuekRow Geom))
    (catchments : List (Catchment Geom)) :
    (extract_hydrogeology_attributes_huek iA huek catchments
      = (aggLoop iA huek catchments emptyFrame).map frameRound2)
    ∧ ∀ df : Frame, extract_hydrogeology_attributes_huek iA huek catchments = Except.ok df →
        ∃ rows : List Frame,
          catchments.map (fun c => processCatchment iA huek c) = rows.map Except.ok
          ∧ df = frameRound2 (rows.foldl frameAppend emptyFrame)
          ∧ df.index = catchments.map (fun c => c.gauge_id) := by
  have hmap : extract_hydrogeology_attributes_huek iA huek catchments
      = (aggLoop iA huek catchments emptyFrame).map frameRound2 := by
    unfold extract_hydrogeology_attributes_huek
    cases h : aggLoop iA huek catchments emptyFrame with
    | error e => rfl
    | ok m => rfl
  refine ⟨hmap, ?_⟩
  intro df h
  rw [hmap] at h
  cases hagg : aggLoop iA huek catchments emptyFrame with
  | error e =>
    rw [hagg] at h
    exact Except.noConfusion h
  | ok raw =>
    rw [hagg] at h
    have hdf : frameRound2 raw = df := by
      rw [show (Except.ok raw : Except String Frame).map frameRound2
        = Except.ok (frameRound2 raw) from rfl] at h
      simpa using h
    obtain ⟨rows, h1, h2, h3⟩ := aggLoop_ok_shape iA huek catchments emptyFrame raw hagg
    refine ⟨rows, h1, ?_, ?_⟩
    · rw [← hdf, h2]
    · rw [← hdf, frameRound2_index, h3]
      rfl

theorem wbAgreeG (f : HuekAttrs → String) (hf : f attrsG = "Gewässer") (v : String) :
    fieldPerc (clip iaQ huekG cG.geom) f v
      = fieldPerc (clip iaQ huekG cG.geom) (fun a => a.kf_bez) v := by
  rw [fieldPercG, fieldPercG, hf, show attrsG.kf_bez = "Gewässer" from rfl]

theorem processCatchmentG :
    processCatchment iaQ huekG cG = Except.ok (fullCollapsed (clip iaQ huekG cG.geom) "g1") := by
  have hg : cG.gauge_id = "g1" := rfl
  rw [processCatchment_eq checkG_kf checkG_ch checkG_ha checkG_vf checkG_ga checkG_gc, hg,
    collapse_wb_ok _ _ (wbAgreeG _ rfl _) (wbAgreeG _ rfl _) (wbAgreeG _ rfl _)
      (wbAgreeG _ rfl _) (wbAgreeG _ rfl _),
    bind_ok_frame,
    collapse_nd_ok _ _ (wbAgreeG _ rfl _) (wbAgreeG _ rfl _) (wbAgreeG _ rfl _)
      (wbAgreeG _ rfl _) (wbAgreeG _ rfl _),
    bind_ok_frame]
  rfl

/-- Witness for C6: the output-shape theorem applied to the concrete
successful run on `huekG`/`[cG]`; the single merged row is
`fullCollapsed`, appended to the empty accumulator and rounded, and the
output is indexed by `cG`'s identifier. -/
theorem c6_output_shape_witness : ∃ rows : List Frame,
    [cG].map (fun c => processCatchment iaQ huekG c) = rows.map Except.ok
    ∧ frameRound2 (frameAppend emptyFrame (fullCollapsed (clip iaQ huekG cG.geom) "g1"))
        = frameRound2 (rows.foldl frameAppend emptyFrame)
    ∧ (frameRound2 (frameAppend emptyFrame (fullCollapsed (clip iaQ huekG cG.geom) "g1"))).index
        = [cG].map (fun c => c.gauge_id) := by
  have hagg : aggLoop iaQ huekG [cG] emptyFrame
      = Except.ok (frameAppend emptyFrame (fullCollapsed (clip iaQ huekG cG.geom) "g1")) := by
    simp only [aggLoop, processCatchmentG, bind_ok_frame]
  exact (c6_output_shape iaQ huekG [cG]).2 _
    (by rw [(c6_output_shape iaQ huekG [cG]).1, hagg]; rfl)

/-- C7, counterexample: the permeability row does have 14 category
columns, but the claimed decomposition "seven base + four aggregate/range
+ waterbody + no-data" only accounts for 13 of them — it misses the
`kf_highly_variable_perc` (`stark variabel`) column. -/
theorem c7_counterexample : kfCats.length = 14 ∧ kfCats.length ≠ 7 + 4 + 1 + 1 := by
  exact ⟨rfl, by decide⟩

/-- C7, amended: every row the permeability extractor returns has exactly
14 category columns: seven base classes, four range classes that span
boundaries, one highly-variable class (`stark variabel`), one waterbody
column and one no-data column, in source order. -/
theorem c7_kf_columns {Geom : Type} (iA : Geom → Geom → ℚ) (huek : List (HuekRow Geom))
    (c : Catchment Geom) (df : Frame)
    (h : extract_kf_from_huek iA huek c = Except.ok df) :
    df.columns.map Prod.fst
      = ["kf_very_high_perc", "kf_high_perc", "kf_medium_perc", "kf_moderate_perc",
         "kf_low_perc", "kf_very_low_perc", "kf_extremely_low_perc",
         "kf_very_high_to_high_perc", "kf_medium_to_moderate_perc",
         "kf_low_to_extremely_low_perc", "kf_highly_variable_perc",
         "kf_moderate_to_low_perc", "kf_waterbody_perc", "kf_no_data_perc"]
    ∧ df.columns.length = 14 := by
  obtain ⟨-, rfl⟩ := extract_kf_ok_iff.mp h
  exact ⟨rfl, rfl⟩

/-- Witness for C7: the amended theorem applied to the row returned on the
concrete input `huekG`/`cG`. -/
theorem c7_kf_columns_witness :
    (categoryFrame (clip iaQ huekG cG.geom) cG.gauge_id
        (fun a => a.kf_bez) kfCats).columns.map Prod.fst
      = ["kf_very_high_perc", "kf_high_perc", "kf_medium_perc", "kf_moderate_perc",
         "kf_low_perc", "kf_very_low_perc", "kf_extremely_low_perc",
         "kf_very_high_to_high_perc", "kf_medium_to_moderate_perc",
         "kf_low_to_extremely_low_perc", "kf_highly_variable_perc",
         "kf_moderate_to_low_perc", "kf_waterbody_perc", "kf_no_data_perc"]
    ∧ (categoryFrame (clip iaQ huekG cG.geom) cG.gauge_id
        (fun a => a.kf_bez) kfCats).columns.length = 14 :=
  c7_kf_columns iaQ huekG cG _ (extract_kf_eq_ok checkG_kf)

/-- C8: the Aggregator is deterministic — running it a second time on the
store left behind by a first run yields the same result; there is no
run-to-run state. -/
theorem c8_deterministic {Geom : Type} (iA : Geom → Geom → ℚ) (st : Store Geom) :
    (runAggregator iA ((runAggregator iA st).2)).1 = (runAggregator iA st).1 := rfl

/-- C9: the Aggregator leaves its two inputs untouched: it returns the
caller's store unchanged, and its result is a pure function of the
pre-call base map and catchment collections. -/
theorem c9_inputs_unchanged {Geom : Type} (iA : Geom → Geom → ℚ) (st : Store Geom) :
    (runAggregator iA st).2 = st
    ∧ (runAggregator iA st).2.huek = st.huek
    ∧ (runAggregator iA st).2.catchments = st.catchments
    ∧ (runAggregator iA st).1
        = extract_hydrogeology_attributes_huek iA st.huek st.catchments :=
  ⟨rfl, rfl, rfl, rfl⟩
